import Mathlib

/-
Verification of the Farmconnect backend (src/backend/server.py) against its
natural-language specification.

Shallow embedding conventions:
- Calendar dates are modelled as integers (day numbers); Python's
  `date_b - date_a` becomes integer subtraction and `date + timedelta(days=n)`
  becomes `date + n`.  `date.today()` is passed explicitly as a `today`
  parameter.
- Float quantities are modelled as rationals (ℚ).
- The Supabase tables touched by the core endpoints are modelled as lists of
  records inside a `DB` state; `.eq("col", v)` lookups taking `data[0]` become
  `List.find?`, and `.update(...).eq("id", v)` becomes a `List.map` that
  rewrites every matching row.
- Each endpoint becomes a function `DB → ... → Result × DB` returning the
  HTTP-level outcome and the post-state.
-/

namespace Farmconnect

/-- Row of the `growth_cycles` table (`GrowthCycleResponse`). -/
structure GrowthCycle where
  id : Nat
  germination_days : Int
  vegetative_days : Int
  flowering_days : Int
  fruiting_days : Int
  total_growth_days : Int
  deriving DecidableEq

/-- Row of the `plant_requirements` table (`PlantRequirementResponse`):
a sparse record of optional quantities. -/
structure PlantRequirement where
  id : Nat
  water_min_ml : Option ℚ
  water_max_ml : Option ℚ
  panchagavya_l_per_month : Option ℚ
  dashagavya_l_per_month : Option ℚ
  jeevamrutha_l_per_month : Option ℚ
  go_krupa_ml_weekly : Option ℚ
  vermicompost_ml_monthly : Option ℚ
  cowpat_kg_monthly : Option ℚ
  spray_3g_g_monthly : Option ℚ
  mustard_g_monthly : Option ℚ
  pulse_l_monthly : Option ℚ
  buttermilk_ml_monthly : Option ℚ
  bo_ml_monthly : Option ℚ
  faa_ml_monthly : Option ℚ
  em_ml_monthly : Option ℚ
  deriving DecidableEq

/-- Row of the `plants` table (`PlantResponse`). -/
structure Plant where
  id : Nat
  name : String
  scientific_name : Option String
  requirement_id : Option Nat
  growth_cycle_id : Option Nat
  notes : Option String
  deriving DecidableEq

/-- Row of the `plant_instances` table (`PlantInstanceResponse`). -/
structure PlantInstance where
  id : Nat
  plot_id : Nat
  plant_id : Nat
  planted_on : Int
  count : Int
  status : String
  current_growth_stage : Option String
  days_since_planting : Option Int
  expected_harvest_date : Option Int
  deriving DecidableEq

/-- Row of the `schedules` table (`ScheduleResponse` plus the
`completion_notes` column written by task completion). -/
structure Schedule where
  id : Nat
  plant_instance_id : Nat
  task_type : String
  scheduled_for : Int
  status : String
  quantity_required : Option ℚ
  unit : Option String
  completion_notes : Option String
  deriving DecidableEq

/-- Row of the `inventory` table (`InventoryResponse`). -/
structure InventoryItem where
  id : Nat
  name : String
  unit : String
  quantity : ℚ
  reorder_level : ℚ
  deriving DecidableEq

/-- Row of the `inventory_transactions` table, with exactly the columns the
source inserts in `update_inventory`. -/
structure InventoryTransaction where
  inventory_id : Nat
  change : ℚ
  reason : String
  deriving DecidableEq

/-- Row of the `plots` table, restricted to the columns the core reads. -/
structure Plot where
  id : Nat
  farm_id : Nat
  deriving DecidableEq

/-- Row of the `farmer_assignments` table, restricted to the columns the core
reads. -/
structure FarmerAssignment where
  farmer_id : Nat
  plot_id : Nat
  deriving DecidableEq

/-- The authenticated caller, as resolved by `get_current_user`. -/
structure User where
  id : Nat
  role : String
  deriving DecidableEq

/-- The slice of the hosted data store touched by the core endpoints. -/
structure DB where
  growth_cycles : List GrowthCycle
  plant_requirements : List PlantRequirement
  plants : List Plant
  plant_instances : List PlantInstance
  schedules : List Schedule
  inventory : List InventoryItem
  inventory_transactions : List InventoryTransaction
  plots : List Plot
  farmer_assignments : List FarmerAssignment
  deriving DecidableEq

/-- The stage-selection chain of `calculate_growth_status`
(src/backend/server.py lines 745-752), verbatim: cumulative thresholds,
inclusive upper bounds, `fruiting` as the terminal catch-all. -/
def stageOf (cycle : GrowthCycle) (days_since : Int) : String :=
  if days_since ≤ cycle.germination_days then "germination"
  else if days_since ≤ cycle.germination_days + cycle.vegetative_days then "vegetative"
  else if days_since ≤ cycle.germination_days + cycle.vegetative_days + cycle.flowering_days then
    "flowering"
  else "fruiting"

/-- `calculate_growth_status` (src/backend/server.py lines 733-756).
Returns `(stage, days_since, expected_harvest)`.  A falsy/absent
`growth_cycle_id`, or a lookup miss in `growth_cycles`, yields
`(none, none, none)`.  `days_since = today - planted_on`;
`expected_harvest = planted_on + total_growth_days`. -/
def calculate_growth_status (growth_cycles : List GrowthCycle) (planted_on : Int)
    (growth_cycle_id : Option Nat) (today : Int) :
    Option String × Option Int × Option Int :=
  match growth_cycle_id with
  | none => (none, none, none)
  | some gid =>
    match growth_cycles.find? (fun c => c.id == gid) with
    | none => (none, none, none)
    | some cycle =>
      let days_since := today - planted_on
      (some (stageOf cycle days_since), some days_since,
        some (planted_on + cycle.total_growth_days))

/-- Outcome of `create_plant_instance`. -/
inductive CreateInstanceResult where
  | ok (inst : PlantInstance)
  | plotNotFound
  | plantNotFound
  deriving DecidableEq

/-- `create_plant_instance` (src/backend/server.py lines 758-787).
Checks the plot, then the plant, computes the growth snapshot from the
plant's `growth_cycle_id`, and inserts exactly one `plant_instances` row with
`status = "active"`.  No other table is written: in particular this endpoint
inserts no `schedules` rows.  `new_id` stands for the store-assigned row id
and `today` for `date.today()`. -/
def create_plant_instance (db : DB) (plot_id plant_id : Nat) (planted_on : Int)
    (count : Int) (new_id : Nat) (today : Int) : CreateInstanceResult × DB :=
  if db.plots.any (fun p => p.id == plot_id) then
    match db.plants.find? (fun p => p.id == plant_id) with
    | none => (CreateInstanceResult.plantNotFound, db)
    | some plant =>
      let r := calculate_growth_status db.growth_cycles planted_on plant.growth_cycle_id today
      let inst : PlantInstance :=
        { id := new_id, plot_id := plot_id, plant_id := plant_id,
          planted_on := planted_on, count := count, status := "active",
          current_growth_stage := r.1, days_since_planting := r.2.1,
          expected_harvest_date := r.2.2 }
      (CreateInstanceResult.ok inst,
        { db with plant_instances := db.plant_instances ++ [inst] })
  else (CreateInstanceResult.plotNotFound, db)

/-- The per-row refresh performed by `list_plant_instances`
(src/backend/server.py lines 796-807): when the instance's plant is found and
carries a `growth_cycle_id`, overwrite the three derived fields with the live
`calculate_growth_status` output; otherwise return the stored row unchanged. -/
def refreshInstance (growth_cycles : List GrowthCycle) (plants : List Plant)
    (today : Int) (inst : PlantInstance) : PlantInstance :=
  match plants.find? (fun p => p.id == inst.plant_id) with
  | none => inst
  | some plant =>
    match plant.growth_cycle_id with
    | none => inst
    | some gid =>
      let r := calculate_growth_status growth_cycles inst.planted_on (some gid) today
      { inst with current_growth_stage := r.1, days_since_planting := r.2.1,
                  expected_harvest_date := r.2.2 }

/-- `list_plant_instances` (src/backend/server.py lines 789-809): optional
`plot_id` filter, then the live refresh of every returned row. -/
def list_plant_instances (db : DB) (plot_id : Option Nat) (today : Int) :
    List PlantInstance :=
  (match plot_id with
   | none => db.plant_instances
   | some pid => db.plant_instances.filter (fun i => i.plot_id == pid)).map
    (refreshInstance db.growth_cycles db.plants today)

/-- `get_plant_instance` (src/backend/server.py lines 811-816): returns the
stored row as-is (no recomputation of the derived fields); `none` models the
404. -/
def get_plant_instance (db : DB) (instance_id : Nat) : Option PlantInstance :=
  db.plant_instances.find? (fun i => i.id == instance_id)

/-- Outcome of `update_inventory`. -/
inductive AdjustResult where
  | ok (new_quantity : ℚ)
  | itemNotFound
  | insufficientInventory
  deriving DecidableEq

/-- `update_inventory` (src/backend/server.py lines 830-850): look up the
item, compute `new_qty = quantity_stored + quantity_delta`, reject with a 400
"Insufficient inventory" if `new_qty < 0` (before any write), otherwise write
the new quantity and append one `inventory_transactions` row carrying the raw
signed delta and the reason. -/
def update_inventory (db : DB) (inventory_id : Nat) (quantity : ℚ) (reason : String) :
    AdjustResult × DB :=
  match db.inventory.find? (fun i => i.id == inventory_id) with
  | none => (AdjustResult.itemNotFound, db)
  | some inv =>
    let new_qty := inv.quantity + quantity
    if new_qty < 0 then (AdjustResult.insufficientInventory, db)
    else
      (AdjustResult.ok new_qty,
        { db with
          inventory := db.inventory.map
            (fun i => if i.id == inventory_id then { i with quantity := new_qty } else i),
          inventory_transactions :=
            db.inventory_transactions ++ [⟨inventory_id, quantity, reason⟩] })

/-- Outcome of `complete_schedule_task`. -/
inductive CompleteResult where
  | ok
  | taskNotFound
  | instanceNotFound
  | notAuthorized
  deriving DecidableEq

/-- The row rewrite performed by the `schedules` update in
`complete_schedule_task` (src/backend/server.py line 931): every row whose id
matches gets `status = "completed"` and `completion_notes = notes`; every
other row is untouched. -/
def applyCompletion (notes : Option String) (task_id : Nat) (s : Schedule) : Schedule :=
  if s.id == task_id then { s with status := "completed", completion_notes := notes } else s

/-- `complete_schedule_task` (src/backend/server.py lines 913-932): look up
the schedule (404 if absent); for a farmer caller, check an assignment to the
instance's plot (404/403 otherwise); then update the matching `schedules`
rows to `status = "completed"` with the request notes.  The source revision
performs no inventory lookup, no inventory deduction, no
`inventory_transactions` insert, no separate checklist write, and no check of
the task's prior status. -/
def complete_schedule_task (db : DB) (task_id : Nat) (notes : Option String)
    (user : User) : CompleteResult × DB :=
  match db.schedules.find? (fun s => s.id == task_id) with
  | none => (CompleteResult.taskNotFound, db)
  | some task =>
    if user.role == "farmer" then
      match db.plant_instances.find? (fun i => i.id == task.plant_instance_id) with
      | none => (CompleteResult.instanceNotFound, db)
      | some inst =>
        if db.farmer_assignments.any
            (fun a => a.farmer_id == user.id && a.plot_id == inst.plot_id) then
          (CompleteResult.ok,
            { db with schedules := db.schedules.map (applyCompletion notes task_id) })
        else (CompleteResult.notAuthorized, db)
    else
      (CompleteResult.ok,
        { db with schedules := db.schedules.map (applyCompletion notes task_id) })

/-- Rank of a stage name under the ordering
germination < vegetative < flowering < fruiting. -/
def stageRank (s : String) : Nat :=
  if s = "germination" then 0
  else if s = "vegetative" then 1
  else if s = "flowering" then 2
  else 3

/-- An inventory item used to instantiate witnesses. -/
def wItem : InventoryItem :=
  { id := 1, name := "Water", unit := "ml", quantity := 10, reorder_level := 2 }

/-- A one-item store used to instantiate the inventory-adjustment witness. -/
def wDB5 : DB :=
  { growth_cycles := [], plant_requirements := [], plants := [],
    plant_instances := [], schedules := [], inventory := [wItem],
    inventory_transactions := [], plots := [], farmer_assignments := [] }

/-- A pending watering task requiring 5 ml. -/
def cexTask1 : Schedule :=
  { id := 1, plant_instance_id := 1, task_type := "water", scheduled_for := 0,
    status := "pending", quantity_required := some 5, unit := some "ml",
    completion_notes := none }

/-- An ml-unit inventory item holding 10 units. -/
def cexItem1 : InventoryItem :=
  { id := 1, name := "Water", unit := "ml", quantity := 10, reorder_level := 0 }

/-- An owner caller. -/
def owner1 : User := { id := 9, role := "owner" }

/-- Store with one pending task (requiring 5 ml) and one matching ml item
holding 10: sufficient stock. -/
def cexDB1 : DB :=
  { growth_cycles := [], plant_requirements := [], plants := [],
    plant_instances := [], schedules := [cexTask1], inventory := [cexItem1],
    inventory_transactions := [], plots := [], farmer_assignments := [] }

/-- A pending task requiring 50 ml — more than `cexItem1` holds. -/
def cexTask2 : Schedule :=
  { id := 2, plant_instance_id := 1, task_type := "water", scheduled_for := 0,
    status := "pending", quantity_required := some 50, unit := some "ml",
    completion_notes := none }

/-- Store with one pending task requiring 50 ml and one matching ml item
holding only 10: insufficient stock. -/
def cexDB2 : DB :=
  { growth_cycles := [], plant_requirements := [], plants := [],
    plant_instances := [], schedules := [cexTask2], inventory := [cexItem1],
    inventory_transactions := [], plots := [], farmer_assignments := [] }

/-- A growth cycle with a zero-length vegetative stage, used to exhibit the
failure of the `daysSince == germinationDays + 1 ⇒ vegetative` boundary. -/
def cexCycle : GrowthCycle :=
  { id := 1, germination_days := 2, vegetative_days := 0, flowering_days := 0,
    fruiting_days := 0, total_growth_days := 2 }

/-- A generic growth cycle used to instantiate witnesses. -/
def wCycle : GrowthCycle :=
  { id := 1, germination_days := 4, vegetative_days := 3, flowering_days := 5,
    fruiting_days := 6, total_growth_days := 20 }

/-- A requirement profile with only `water_min_ml` set. -/
def cexReq : PlantRequirement :=
  { id := 1, water_min_ml := some 100, water_max_ml := none,
    panchagavya_l_per_month := none, dashagavya_l_per_month := none,
    jeevamrutha_l_per_month := none, go_krupa_ml_weekly := none,
    vermicompost_ml_monthly := none, cowpat_kg_monthly := none,
    spray_3g_g_monthly := none, mustard_g_monthly := none,
    pulse_l_monthly := none, buttermilk_ml_monthly := none,
    bo_ml_monthly := none, faa_ml_monthly := none, em_ml_monthly := none }

/-- A plant referencing `cexReq` and no growth cycle. -/
def cexPlant : Plant :=
  { id := 1, name := "Tomato", scientific_name := none,
    requirement_id := some 1, growth_cycle_id := none, notes := none }

/-- A plot for instance creation. -/
def cexPlot : Plot := { id := 1, farm_id := 1 }

/-- Store holding `cexPlot`, `cexPlant` and `cexReq`, with no schedules. -/
def cexDB3 : DB :=
  { growth_cycles := [], plant_requirements := [cexReq], plants := [cexPlant],
    plant_instances := [], schedules := [], inventory := [],
    inventory_transactions := [], plots := [cexPlot], farmer_assignments := [] }

/-- A cycle whose germination stage lasts one day. -/
def c4Cycle : GrowthCycle :=
  { id := 1, germination_days := 1, vegetative_days := 100,
    flowering_days := 100, fruiting_days := 100, total_growth_days := 301 }

/-- A plant referencing `c4Cycle`. -/
def c4Plant : Plant :=
  { id := 1, name := "Tomato", scientific_name := none,
    requirement_id := none, growth_cycle_id := some 1, notes := none }

/-- A stored instance whose snapshot fields are stale at day 50: the stored
stage is still "germination". -/
def c4Inst : PlantInstance :=
  { id := 1, plot_id := 1, plant_id := 1, planted_on := 0, count := 1,
    status := "active", current_growth_stage := some "germination",
    days_since_planting := some 0, expected_harvest_date := some 301 }

/-- Store holding `c4Cycle`, `c4Plant` and the stale `c4Inst`. -/
def c4DB : DB :=
  { growth_cycles := [c4Cycle], plant_requirements := [], plants := [c4Plant],
    plant_instances := [c4Inst], schedules := [], inventory := [],
    inventory_transactions := [], plots := [], farmer_assignments := [] }

theorem calc_growth_singleton (c : GrowthCycle) (planted_on today : Int) :
    calculate_growth_status [c] planted_on (some c.id) today
      = (some (stageOf c (today - planted_on)), some (today - planted_on),
         some (planted_on + c.total_growth_days)) := by
  simp [calculate_growth_status, List.find?]

theorem stageOf_germination (c : GrowthCycle) (d : Int)
    (h : d ≤ c.germination_days) : stageOf c d = "germination" := by
  simp [stageOf, h]

theorem stageOf_vegetative (c : GrowthCycle) (d : Int)
    (h1 : ¬ d ≤ c.germination_days)
    (h2 : d ≤ c.germination_days + c.vegetative_days) :
    stageOf c d = "vegetative" := by
  simp [stageOf, h1, h2]

theorem stageOf_flowering (c : GrowthCycle) (d : Int) (hv : 0 ≤ c.vegetative_days)
    (h1 : ¬ d ≤ c.germination_days + c.vegetative_days)
    (h2 : d ≤ c.germination_days + c.vegetative_days + c.flowering_days) :
    stageOf c d = "flowering" := by
  have h0 : ¬ d ≤ c.germination_days := by omega
  simp [stageOf, h0, h1, h2]

theorem stageOf_fruiting (c : GrowthCycle) (d : Int)
    (hv : 0 ≤ c.vegetative_days) (hf : 0 ≤ c.flowering_days)
    (h1 : ¬ d ≤ c.germination_days + c.vegetative_days + c.flowering_days) :
    stageOf c d = "fruiting" := by
  have h0 : ¬ d ≤ c.germination_days := by omega
  have h0' : ¬ d ≤ c.germination_days + c.vegetative_days := by omega
  simp [stageOf, h0, h0', h1]

theorem stageRank_stageOf (c : GrowthCycle) (d : Int) :
    stageRank (stageOf c d) =
      if d ≤ c.germination_days then 0
      else if d ≤ c.germination_days + c.vegetative_days then 1
      else if d ≤ c.germination_days + c.vegetative_days + c.flowering_days then 2
      else 3 := by
  unfold stageOf
  split_ifs <;> rfl

/-- C6 (amended): for a growth cycle with non-negative durations the stage
boundaries of `calculate_growth_status` are cumulative and inclusive of the
upper bound (`daysSince ≤ g` ⇒ germination, else `≤ g + v` ⇒ vegetative, else
`≤ g + v + f` ⇒ flowering, else fruiting); `daysSince = germinationDays`
yields germination, and `daysSince = germinationDays + 1` yields vegetative
provided `vegetativeDays ≥ 1`. -/
theorem growth_stage_boundaries (c : GrowthCycle) (planted_on today : Int)
    (hg : 0 ≤ c.germination_days) (hv : 0 ≤ c.vegetative_days)
    (hf : 0 ≤ c.flowering_days) :
    (today - planted_on ≤ c.germination_days →
      (calculate_growth_status [c] planted_on (some c.id) today).1 = some "germination") ∧
    (¬ today - planted_on ≤ c.germination_days →
      today - planted_on ≤ c.germination_days + c.vegetative_days →
      (calculate_growth_status [c] planted_on (some c.id) today).1 = some "vegetative") ∧
    (¬ today - planted_on ≤ c.germination_days + c.vegetative_days →
      today - planted_on ≤ c.germination_days + c.vegetative_days + c.flowering_days →
      (calculate_growth_status [c] planted_on (some c.id) today).1 = some "flowering") ∧
    (¬ today - planted_on ≤ c.germination_days + c.vegetative_days + c.flowering_days →
      (calculate_growth_status [c] planted_on (some c.id) today).1 = some "fruiting") ∧
    (today - planted_on = c.germination_days →
      (calculate_growth_status [c] planted_on (some c.id) today).1 = some "germination") ∧
    (1 ≤ c.vegetative_days → today - planted_on = c.germination_days + 1 →
      (calculate_growth_status [c] planted_on (some c.id) today).1 = some "vegetative") := by
  rw [calc_growth_singleton]
  refine ⟨fun h1 => ?_, fun h1 h2 => ?_, fun h1 h2 => ?_, fun h1 => ?_,
    fun h1 => ?_, fun hv1 h1 => ?_⟩
  · exact congrArg some (stageOf_germination c _ h1)
  · exact congrArg some (stageOf_vegetative c _ h1 h2)
  · exact congrArg some (stageOf_flowering c _ hv h1 h2)
  · exact congrArg some (stageOf_fruiting c _ hv hf h1)
  · exact congrArg some (stageOf_germination c _ (le_of_eq h1))
  · exact congrArg some (stageOf_vegetative c _ (by omega) (by omega))

/-- Witness for C6 at the cycle (g,v,f,fr) = (4,3,5,6), `plantedOn = 0`,
`today = 5`: the hypotheses hold and `daysSince = g + 1` yields vegetative. -/
theorem growth_stage_boundaries_witness :
    (0 ≤ wCycle.germination_days ∧ 0 ≤ wCycle.vegetative_days ∧
      0 ≤ wCycle.flowering_days ∧ 1 ≤ wCycle.vegetative_days ∧
      (5 : Int) - 0 = wCycle.germination_days + 1) ∧
    (calculate_growth_status [wCycle] 0 (some wCycle.id) 5).1 = some "vegetative" :=
  ⟨⟨by decide, by decide, by decide, by decide, by decide⟩,
    (growth_stage_boundaries wCycle 0 5 (by decide) (by decide)
      (by decide)).2.2.2.2.2 (by decide) (by decide)⟩

/-- C6 counterexample: the cycle (g,v,f,fr) = (2,0,0,0) has non-negative
durations, yet at `daysSince = germinationDays + 1 = 3` the stage is
"fruiting", not "vegetative" — the unconditional
`daysSince == germinationDays + 1 ⇒ vegetative` boundary of the claim fails
when `vegetativeDays = 0`. -/
theorem growth_stage_boundary_cex :
    (0 ≤ cexCycle.germination_days ∧ 0 ≤ cexCycle.vegetative_days ∧
      0 ≤ cexCycle.flowering_days ∧ 0 ≤ cexCycle.fruiting_days) ∧
    (3 : Int) - 0 = cexCycle.germination_days + 1 ∧
    (calculate_growth_status [cexCycle] 0 (some cexCycle.id) 3).1 = some "fruiting" ∧
    ¬ (calculate_growth_status [cexCycle] 0 (some cexCycle.id) 3).1 = some "vegetative" := by
  decide

/-- C7: for every growth cycle and planting date, the expected harvest date
returned by `calculate_growth_status` satisfies
`expectedHarvest - plantedOn = totalGrowthDays`, independently of the four
sub-stage durations. -/
theorem expected_harvest_offset (c : GrowthCycle) (planted_on today : Int) :
    ((calculate_growth_status [c] planted_on (some c.id) today).2.2).map
      (fun h => h - planted_on) = some c.total_growth_days := by
  rw [calc_growth_singleton]
  simp

/-- C8: for every growth cycle with non-negative durations, the stage
returned by `calculate_growth_status` is one of germination, vegetative,
flowering, fruiting; and for `t1 ≤ t2` (i.e. non-decreasing `daysSince`) the
stage rank never decreases. -/
theorem growth_stage_valid_and_monotone (c : GrowthCycle) (planted_on t1 t2 : Int)
    (hg : 0 ≤ c.germination_days) (hv : 0 ≤ c.vegetative_days)
    (hf : 0 ≤ c.flowering_days) (hfr : 0 ≤ c.fruiting_days) (ht : t1 ≤ t2) :
    (∃ s, (calculate_growth_status [c] planted_on (some c.id) t1).1 = some s ∧
      (s = "germination" ∨ s = "vegetative" ∨ s = "flowering" ∨ s = "fruiting")) ∧
    (∀ s1 s2, (calculate_growth_status [c] planted_on (some c.id) t1).1 = some s1 →
      (calculate_growth_status [c] planted_on (some c.id) t2).1 = some s2 →
      stageRank s1 ≤ stageRank s2) := by
  constructor
  · rw [calc_growth_singleton]
    refine ⟨stageOf c (t1 - planted_on), rfl, ?_⟩
    unfold stageOf
    split_ifs <;> simp
  · intro s1 s2 h1 h2
    rw [calc_growth_singleton] at h1 h2
    simp only [Option.some.injEq] at h1 h2
    rw [← h1, ← h2, stageRank_stageOf, stageRank_stageOf]
    split_ifs <;> omega

/-- Witness for C8 at the cycle (4,3,5,6), `plantedOn = 0`, `t1 = 2`,
`t2 = 9`. -/
theorem growth_stage_valid_and_monotone_witness :
    (0 ≤ wCycle.germination_days ∧ 0 ≤ wCycle.vegetative_days ∧
      0 ≤ wCycle.flowering_days ∧ 0 ≤ wCycle.fruiting_days ∧ (2 : Int) ≤ 9) ∧
    (∃ s, (calculate_growth_status [wCycle] 0 (some wCycle.id) 2).1 = some s ∧
      (s = "germination" ∨ s = "vegetative" ∨ s = "flowering" ∨ s = "fruiting")) ∧
    (∀ s1 s2, (calculate_growth_status [wCycle] 0 (some wCycle.id) 2).1 = some s1 →
      (calculate_growth_status [wCycle] 0 (some wCycle.id) 9).1 = some s2 →
      stageRank s1 ≤ stageRank s2) :=
  ⟨⟨by decide, by decide, by decide, by decide, by decide⟩,
    growth_stage_valid_and_monotone wCycle 0 2 9 (by decide) (by decide)
      (by decide) (by decide) (by decide)⟩

theorem find?_map_update_inventory (l : List InventoryItem) (iid : Nat) (q : ℚ)
    (item : InventoryItem) (h : l.find? (fun i => i.id == iid) = some item) :
    (l.map (fun i => if i.id == iid then { i with quantity := q } else i)).find?
      (fun i => i.id == iid) = some { item with quantity := q } := by
  induction l with
  | nil => simp at h
  | cons a l ih =>
    cases hb : (a.id == iid) with
    | true =>
      rw [List.find?_cons, hb] at h
      obtain rfl := Option.some.inj h
      simp only [List.map_cons, if_pos hb, List.find?_cons]
      have hb2 : (({ a with quantity := q } : InventoryItem).id == iid) = true := hb
      rw [hb2]
    | false =>
      rw [List.find?_cons, hb] at h
      simp only [List.map_cons, List.find?_cons, hb]
      simp only [Bool.false_eq_true, if_false]
      rw [hb]
      exact ih h

theorem update_inventory_found (db : DB) (iid : Nat) (delta : ℚ) (reason : String)
    (item : InventoryItem)
    (hfind : db.inventory.find? (fun i => i.id == iid) = some item) :
    update_inventory db iid delta reason =
      (if item.quantity + delta < 0 then (AdjustResult.insufficientInventory, db)
       else (AdjustResult.ok (item.quantity + delta),
         { db with
           inventory := db.inventory.map
             (fun i => if i.id == iid then { i with quantity := item.quantity + delta } else i),
           inventory_transactions :=
             db.inventory_transactions ++ [⟨iid, delta, reason⟩] })) := by
  unfold update_inventory
  rw [hfind]

/-- C5: for an existing inventory item, the inventory adjustment fails with
`InsufficientInventory` exactly when `currentQuantity + delta < 0`, and on
failure writes nothing (the whole state is returned unchanged); on success
it returns and persists `newQuantity = currentQuantity + delta` and appends
exactly one `inventory_transactions` row carrying the raw signed delta and
the given reason. -/
theorem update_inventory_spec (db : DB) (iid : Nat) (delta : ℚ) (reason : String)
    (item : InventoryItem)
    (hfind : db.inventory.find? (fun i => i.id == iid) = some item) :
    (item.quantity + delta < 0 →
      update_inventory db iid delta reason = (AdjustResult.insufficientInventory, db)) ∧
    (0 ≤ item.quantity + delta →
      (update_inventory db iid delta reason).1 = AdjustResult.ok (item.quantity + delta) ∧
      (update_inventory db iid delta reason).2.inventory.find? (fun i => i.id == iid)
        = some { item with quantity := item.quantity + delta } ∧
      (update_inventory db iid delta reason).2.inventory_transactions
        = db.inventory_transactions ++ [⟨iid, delta, reason⟩] ∧
      (update_inventory db iid delta reason).2.schedules = db.schedules) := by
  rw [update_inventory_found db iid delta reason item hfind]
  constructor
  · intro hneg
    rw [if_pos hneg]
  · intro hpos
    rw [if_neg (not_lt.mpr hpos)]
    exact ⟨rfl, find?_map_update_inventory db.inventory iid (item.quantity + delta) item hfind,
      rfl, rfl⟩

/-- Witness for C5 at `wDB5` (one ml item holding 10) with `delta = -4`: the
item is found, the adjustment succeeds with `newQuantity = 6`, and one
transaction row carrying the raw delta is appended. -/
theorem update_inventory_spec_witness :
    (wDB5.inventory.find? (fun i => i.id == 1) = some wItem) ∧
    ((wItem.quantity + (-4) < 0 →
      update_inventory wDB5 1 (-4) "usage" = (AdjustResult.insufficientInventory, wDB5)) ∧
     (0 ≤ wItem.quantity + (-4) →
      (update_inventory wDB5 1 (-4) "usage").1 = AdjustResult.ok (wItem.quantity + (-4)) ∧
      (update_inventory wDB5 1 (-4) "usage").2.inventory.find? (fun i => i.id == 1)
        = some { wItem with quantity := wItem.quantity + (-4) } ∧
      (update_inventory wDB5 1 (-4) "usage").2.inventory_transactions
        = wDB5.inventory_transactions ++ [⟨1, -4, "usage"⟩] ∧
      (update_inventory wDB5 1 (-4) "usage").2.schedules = wDB5.schedules)) :=
  ⟨rfl, update_inventory_spec wDB5 1 (-4) "usage" wItem rfl⟩

theorem applyCompletion_id (notes : Option String) (task_id : Nat) (s : Schedule) :
    (applyCompletion notes task_id s).id = s.id := by
  unfold applyCompletion
  split <;> rfl

theorem applyCompletion_status (notes : Option String) (task_id : Nat) (s : Schedule)
    (h : (applyCompletion notes task_id s).id = task_id) :
    (applyCompletion notes task_id s).status = "completed" := by
  rw [applyCompletion_id] at h
  unfold applyCompletion
  rw [if_pos (beq_iff_eq.mpr h)]

theorem find?_map_applyCompletion (l : List Schedule) (task_id : Nat)
    (notes : Option String) (task : Schedule)
    (h : l.find? (fun s => s.id == task_id) = some task) :
    (l.map (applyCompletion notes task_id)).find? (fun s => s.id == task_id)
      = some { task with status := "completed", completion_notes := notes } := by
  induction l with
  | nil => simp at h
  | cons a l ih =>
    cases hb : (a.id == task_id) with
    | true =>
      rw [List.find?_cons, hb] at h
      obtain rfl := Option.some.inj h
      simp only [List.map_cons, applyCompletion, if_pos hb, List.find?_cons]
      have hb2 : (({ a with status := "completed", completion_notes := notes } :
          Schedule).id == task_id) = true := hb
      rw [hb2]
    | false =>
      rw [List.find?_cons, hb] at h
      simp only [List.map_cons, applyCompletion, List.find?_cons, hb]
      simp only [Bool.false_eq_true, if_false]
      rw [hb]
      exact ih h

theorem complete_ok_of_found (db : DB) (task_id : Nat) (notes : Option String)
    (user : User) (task : Schedule)
    (hrole : ¬ user.role = "farmer")
    (hfind : db.schedules.find? (fun s => s.id == task_id) = some task) :
    complete_schedule_task db task_id notes user =
      (CompleteResult.ok,
        { db with schedules := db.schedules.map (applyCompletion notes task_id) }) := by
  unfold complete_schedule_task
  rw [hfind]
  have hb : (user.role == "farmer") = false := beq_eq_false_iff_ne.mpr hrole
  simp [hb]

theorem complete_ok_state (db : DB) (task_id : Nat) (notes : Option String)
    (user : User)
    (hok : (complete_schedule_task db task_id notes user).1 = CompleteResult.ok) :
    (complete_schedule_task db task_id notes user).2
      = { db with schedules := db.schedules.map (applyCompletion notes task_id) } := by
  unfold complete_schedule_task at hok ⊢
  split at hok
  · simp at hok
  · split at hok
    · split at hok
      · simp at hok
      · split at hok
        · rename_i hrole x2 inst heq2 hassign
          rw [if_pos hrole, if_pos hassign]
        · simp at hok
    · rename_i hrole
      rw [if_neg hrole]

/-- C1 (amended): for a schedule task carrying a non-null quantityRequired
and unit whose matching-unit inventory item has sufficient stock, task
completion (by a non-farmer caller) succeeds and marks the schedule
`completed` with the notes recorded in its `completion_notes`; the inventory
is left untouched and no `inventory_transactions` row and no separate
audit entry are written — this source revision performs no deduction. -/
theorem complete_task_no_inventory_effect (db : DB) (task_id : Nat)
    (notes : Option String) (user : User) (task : Schedule) (q : ℚ) (u : String)
    (item : InventoryItem)
    (hrole : ¬ user.role = "farmer")
    (hfind : db.schedules.find? (fun s => s.id == task_id) = some task)
    (hq : task.quantity_required = some q)
    (hu : task.unit = some u)
    (hitem : db.inventory.find? (fun i => i.unit == u) = some item)
    (hsuff : q ≤ item.quantity) :
    (complete_schedule_task db task_id notes user).1 = CompleteResult.ok ∧
    (complete_schedule_task db task_id notes user).2.inventory = db.inventory ∧
    (complete_schedule_task db task_id notes user).2.inventory_transactions
      = db.inventory_transactions ∧
    (complete_schedule_task db task_id notes user).2.schedules.find?
      (fun s => s.id == task_id)
      = some { task with status := "completed", completion_notes := notes } := by
  rw [complete_ok_of_found db task_id notes user task hrole hfind]
  exact ⟨rfl, rfl, rfl, find?_map_applyCompletion db.schedules task_id notes task hfind⟩

/-- Witness for C1 at `cexDB1`: task 1 requires 5 ml, the ml item holds 10. -/
theorem complete_task_no_inventory_effect_witness :
    ((¬ owner1.role = "farmer") ∧
     cexDB1.schedules.find? (fun s => s.id == 1) = some cexTask1 ∧
     cexTask1.quantity_required = some 5 ∧ cexTask1.unit = some "ml" ∧
     cexDB1.inventory.find? (fun i => i.unit == "ml") = some cexItem1 ∧
     (5 : ℚ) ≤ cexItem1.quantity) ∧
    ((complete_schedule_task cexDB1 1 (some "done") owner1).1 = CompleteResult.ok ∧
     (complete_schedule_task cexDB1 1 (some "done") owner1).2.inventory
       = cexDB1.inventory ∧
     (complete_schedule_task cexDB1 1 (some "done") owner1).2.inventory_transactions
       = cexDB1.inventory_transactions ∧
     (complete_schedule_task cexDB1 1 (some "done") owner1).2.schedules.find?
       (fun s => s.id == 1)
       = some { cexTask1 with status := "completed", completion_notes := some "done" }) :=
  ⟨⟨by decide, rfl, rfl, rfl, rfl, by norm_num [cexItem1]⟩,
    complete_task_no_inventory_effect cexDB1 1 (some "done") owner1 cexTask1 5 "ml"
      cexItem1 (by decide) rfl rfl rfl rfl (by norm_num [cexItem1])⟩

/-- C1 counterexample: in `cexDB1` (task 1 requires 5 ml, the ml item holds
10 ≥ 5) completion succeeds, but the item still holds 10 — not 10 − 5 — and
no `inventory_transactions` row exists afterwards, contradicting the claimed
deduction, transaction append and audit write. -/
theorem complete_task_deduction_cex :
    cexTask1.quantity_required = some 5 ∧ cexTask1.unit = some "ml" ∧
    cexItem1.unit = "ml" ∧ (5 : ℚ) ≤ cexItem1.quantity ∧
    (complete_schedule_task cexDB1 1 (some "done") owner1).1 = CompleteResult.ok ∧
    (complete_schedule_task cexDB1 1 (some "done") owner1).2.inventory = [cexItem1] ∧
    ¬ (complete_schedule_task cexDB1 1 (some "done") owner1).2.inventory
        = [{ cexItem1 with quantity := cexItem1.quantity - 5 }] ∧
    (complete_schedule_task cexDB1 1 (some "done") owner1).2.inventory_transactions
      = [] := by
  refine ⟨rfl, rfl, rfl, by norm_num [cexItem1], rfl, rfl, ?_, rfl⟩
  intro hcontra
  have h1 : ([cexItem1] : List InventoryItem)
      = [{ cexItem1 with quantity := cexItem1.quantity - 5 }] := hcontra
  injection h1 with hh ht
  have h2 := congrArg InventoryItem.quantity hh
  simp only [cexItem1] at h2
  norm_num at h2

/-- C2 (amended): task completion performs no inventory check: even when the
task's quantityRequired exceeds the matching-unit item's stock, the operation
succeeds (no `InsufficientInventory` failure) and marks the schedule
`completed`; the inventory quantity is unchanged and no transaction row is
appended (trivially no inventory effect, but the schedule status does
change). -/
theorem complete_task_no_inventory_check (db : DB) (task_id : Nat)
    (notes : Option String) (user : User) (task : Schedule) (q : ℚ) (u : String)
    (item : InventoryItem)
    (hrole : ¬ user.role = "farmer")
    (hfind : db.schedules.find? (fun s => s.id == task_id) = some task)
    (hq : task.quantity_required = some q)
    (hu : task.unit = some u)
    (hitem : db.inventory.find? (fun i => i.unit == u) = some item)
    (hinsuff : item.quantity < q) :
    (complete_schedule_task db task_id notes user).1 = CompleteResult.ok ∧
    (complete_schedule_task db task_id notes user).2.inventory = db.inventory ∧
    (complete_schedule_task db task_id notes user).2.inventory_transactions
      = db.inventory_transactions ∧
    (complete_schedule_task db task_id notes user).2.schedules.find?
      (fun s => s.id == task_id)
      = some { task with status := "completed", completion_notes := notes } := by
  rw [complete_ok_of_found db task_id notes user task hrole hfind]
  exact ⟨rfl, rfl, rfl, find?_map_applyCompletion db.schedules task_id notes task hfind⟩

/-- Witness for C2 at `cexDB2`: task 2 requires 50 ml, the ml item holds
only 10. -/
theorem complete_task_no_inventory_check_witness :
    ((¬ owner1.role = "farmer") ∧
     cexDB2.schedules.find? (fun s => s.id == 2) = some cexTask2 ∧
     cexTask2.quantity_required = some 50 ∧ cexTask2.unit = some "ml" ∧
     cexDB2.inventory.find? (fun i => i.unit == "ml") = some cexItem1 ∧
     cexItem1.quantity < 50) ∧
    ((complete_schedule_task cexDB2 2 none owner1).1 = CompleteResult.ok ∧
     (complete_schedule_task cexDB2 2 none owner1).2.inventory = cexDB2.inventory ∧
     (complete_schedule_task cexDB2 2 none owner1).2.inventory_transactions
       = cexDB2.inventory_transactions ∧
     (complete_schedule_task cexDB2 2 none owner1).2.schedules.find?
       (fun s => s.id == 2)
       = some { cexTask2 with status := "completed", completion_notes := none }) :=
  ⟨⟨by decide, rfl, rfl, rfl, rfl, by norm_num [cexItem1]⟩,
    complete_task_no_inventory_check cexDB2 2 none owner1 cexTask2 50 "ml"
      cexItem1 (by decide) rfl rfl rfl rfl (by norm_num [cexItem1])⟩

/-- C2 counterexample: in `cexDB2` (task 2 requires 50, the matching ml item
holds only 10) completion does not fail with `InsufficientInventory`: it
returns ok and the schedule's status changes to `completed` — the claimed
rejection and "schedule status unchanged" both fail. -/
theorem complete_task_insufficient_cex :
    cexTask2.quantity_required = some 50 ∧ cexItem1.unit = "ml" ∧
    cexItem1.quantity < 50 ∧ cexTask2.status = "pending" ∧
    (complete_schedule_task cexDB2 2 none owner1).1 = CompleteResult.ok ∧
    (complete_schedule_task cexDB2 2 none owner1).2.schedules.find?
      (fun s => s.id == 2)
      = some { cexTask2 with status := "completed", completion_notes := none } ∧
    (complete_schedule_task cexDB2 2 none owner1).2.inventory = [cexItem1] := by
  exact ⟨rfl, rfl, by norm_num [cexItem1], rfl, rfl, rfl, rfl⟩

/-- C9: nothing guards against double completion: starting from any store in
which the task exists, a first completion call followed by a second one on
the same id has the second call succeed as well (no AlreadyCompleted-style
rejection), and every row with that id still ends `completed`. -/
theorem no_double_completion_guard (db : DB) (task_id : Nat) (n1 n2 : Option String)
    (user : User) (task : Schedule)
    (hrole : ¬ user.role = "farmer")
    (hfind : db.schedules.find? (fun s => s.id == task_id) = some task) :
    (complete_schedule_task (complete_schedule_task db task_id n1 user).2
        task_id n2 user).1 = CompleteResult.ok ∧
    ∀ s ∈ (complete_schedule_task (complete_schedule_task db task_id n1 user).2
        task_id n2 user).2.schedules,
      s.id = task_id → s.status = "completed" := by
  have h1 := complete_ok_of_found db task_id n1 user task hrole hfind
  have hfind1 : ({ db with schedules := db.schedules.map (applyCompletion n1 task_id) } :
      DB).schedules.find? (fun s => s.id == task_id)
      = some { task with status := "completed", completion_notes := n1 } :=
    find?_map_applyCompletion db.schedules task_id n1 task hfind
  have h2 := complete_ok_of_found _ task_id n2 user _ hrole hfind1
  rw [h1, h2]
  refine ⟨rfl, ?_⟩
  intro s hs hid
  obtain ⟨x, hx, rfl⟩ := List.mem_map.mp hs
  exact applyCompletion_status n2 task_id x hid

/-- Witness for C9 at `cexDB1` with owner caller and task 1. -/
theorem no_double_completion_guard_witness :
    ((¬ owner1.role = "farmer") ∧
     cexDB1.schedules.find? (fun s => s.id == 1) = some cexTask1) ∧
    ((complete_schedule_task (complete_schedule_task cexDB1 1 (some "a") owner1).2
        1 (some "b") owner1).1 = CompleteResult.ok ∧
     ∀ s ∈ (complete_schedule_task (complete_schedule_task cexDB1 1 (some "a") owner1).2
        1 (some "b") owner1).2.schedules,
      s.id = 1 → s.status = "completed") :=
  ⟨⟨by decide, rfl⟩,
    no_double_completion_guard cexDB1 1 (some "a") (some "b") owner1 cexTask1
      (by decide) rfl⟩

/-- C10: a successful task completion modifies only the `status` and
`completion_notes` fields of the rows matching the given id: every other
table (inventory quantities included) is unchanged, the schedules list keeps
its length, every non-matching row is returned verbatim, and every matching
row differs from its old value only in `status` (set to `completed`) and
`completion_notes` (set to the given notes). -/
theorem complete_task_frame (db : DB) (task_id : Nat) (notes : Option String)
    (user : User)
    (hok : (complete_schedule_task db task_id notes user).1 = CompleteResult.ok) :
    (complete_schedule_task db task_id notes user).2.inventory = db.inventory ∧
    (complete_schedule_task db task_id notes user).2.inventory_transactions
      = db.inventory_transactions ∧
    (complete_schedule_task db task_id notes user).2.plant_instances
      = db.plant_instances ∧
    (complete_schedule_task db task_id notes user).2.plants = db.plants ∧
    (complete_schedule_task db task_id notes user).2.growth_cycles
      = db.growth_cycles ∧
    (complete_schedule_task db task_id notes user).2.plant_requirements
      = db.plant_requirements ∧
    (complete_schedule_task db task_id notes user).2.plots = db.plots ∧
    (complete_schedule_task db task_id notes user).2.farmer_assignments
      = db.farmer_assignments ∧
    (complete_schedule_task db task_id notes user).2.schedules.length
      = db.schedules.length ∧
    (∀ (i : Nat) (s : Schedule), db.schedules[i]? = some s → ¬ s.id = task_id →
      (complete_schedule_task db task_id notes user).2.schedules[i]? = some s) ∧
    (∀ (i : Nat) (s : Schedule), db.schedules[i]? = some s → s.id = task_id →
      (complete_schedule_task db task_id notes user).2.schedules[i]?
        = some { s with status := "completed", completion_notes := notes }) := by
  rw [complete_ok_state db task_id notes user hok]
  refine ⟨rfl, rfl, rfl, rfl, rfl, rfl, rfl, rfl, List.length_map db.schedules _, ?_, ?_⟩
  · intro i s hs hne
    have hb : (s.id == task_id) = false := beq_eq_false_iff_ne.mpr hne
    simp [List.getElem?_map, hs, applyCompletion, hb]
  · intro i s hs he
    have hb : (s.id == task_id) = true := beq_iff_eq.mpr he
    simp [List.getElem?_map, hs, applyCompletion, hb]

/-- Witness for C10 at `cexDB1` with owner caller and task 1. -/
theorem complete_task_frame_witness :
    ((complete_schedule_task cexDB1 1 (some "n") owner1).1 = CompleteResult.ok) ∧
    ((complete_schedule_task cexDB1 1 (some "n") owner1).2.inventory
        = cexDB1.inventory ∧
     (complete_schedule_task cexDB1 1 (some "n") owner1).2.inventory_transactions
        = cexDB1.inventory_transactions ∧
     (complete_schedule_task cexDB1 1 (some "n") owner1).2.plant_instances
        = cexDB1.plant_instances ∧
     (complete_schedule_task cexDB1 1 (some "n") owner1).2.plants = cexDB1.plants ∧
     (complete_schedule_task cexDB1 1 (some "n") owner1).2.growth_cycles
        = cexDB1.growth_cycles ∧
     (complete_schedule_task cexDB1 1 (some "n") owner1).2.plant_requirements
        = cexDB1.plant_requirements ∧
     (complete_schedule_task cexDB1 1 (some "n") owner1).2.plots = cexDB1.plots ∧
     (complete_schedule_task cexDB1 1 (some "n") owner1).2.farmer_assignments
        = cexDB1.farmer_assignments ∧
     (complete_schedule_task cexDB1 1 (some "n") owner1).2.schedules.length
        = cexDB1.schedules.length ∧
     (∀ (i : Nat) (s : Schedule), cexDB1.schedules[i]? = some s → ¬ s.id = 1 →
       (complete_schedule_task cexDB1 1 (some "n") owner1).2.schedules[i]? = some s) ∧
     (∀ (i : Nat) (s : Schedule), cexDB1.schedules[i]? = some s → s.id = 1 →
       (complete_schedule_task cexDB1 1 (some "n") owner1).2.schedules[i]?
         = some { s with status := "completed", completion_notes := some "n" })) :=
  ⟨rfl, complete_task_frame cexDB1 1 (some "n") owner1 rfl⟩

/-- C3 (amended): plant-instance creation performs no schedule generation:
the `schedules` table is unchanged by `create_plant_instance`, and when no
pre-existing schedule references the new instance id, zero schedule rows
exist for it afterwards (instead of the claimed 30 daily watering rows). -/
theorem create_plant_instance_no_schedules (db : DB) (plot_id plant_id : Nat)
    (planted_on : Int) (count : Int) (new_id : Nat) (today : Int)
    (hfresh : db.schedules.filter (fun s => s.plant_instance_id == new_id) = []) :
    (create_plant_instance db plot_id plant_id planted_on count new_id today).2.schedules
      = db.schedules ∧
    ((create_plant_instance db plot_id plant_id planted_on count new_id today).2.schedules.filter
      (fun s => s.plant_instance_id == new_id)).length = 0 := by
  have hsch : (create_plant_instance db plot_id plant_id planted_on count
      new_id today).2.schedules = db.schedules := by
    unfold create_plant_instance
    split
    · split <;> rfl
    · rfl
  exact ⟨hsch, by rw [hsch, hfresh]; rfl⟩

/-- Witness for C3 at `cexDB3` (plot 1, plant 1 with a water-only
requirement), creating instance 7 on day 0. -/
theorem create_plant_instance_no_schedules_witness :
    (cexDB3.schedules.filter (fun s => s.plant_instance_id == 7) = []) ∧
    ((create_plant_instance cexDB3 1 1 0 1 7 0).2.schedules = cexDB3.schedules ∧
     ((create_plant_instance cexDB3 1 1 0 1 7 0).2.schedules.filter
       (fun s => s.plant_instance_id == 7)).length = 0) :=
  ⟨rfl, create_plant_instance_no_schedules cexDB3 1 1 0 1 7 0 rfl⟩

/-- C3 counterexample: creating instance 7 in `cexDB3` — whose plant
references a requirement with only `water_min_ml = 100` set — does create the
plant-instance row, yet zero (not 30) schedule rows exist for the new
instance afterwards. -/
theorem create_instance_no_schedules_cex :
    cexReq.water_min_ml = some 100 ∧ cexReq.go_krupa_ml_weekly = none ∧
    cexReq.panchagavya_l_per_month = none ∧
    cexPlant.requirement_id = some cexReq.id ∧
    ((create_plant_instance cexDB3 1 1 0 1 7 0).2.plant_instances.map
      (fun i => i.id)) = [7] ∧
    ((create_plant_instance cexDB3 1 1 0 1 7 0).2.schedules.filter
      (fun s => s.plant_instance_id == 7)).length = 0 ∧
    ¬ ((create_plant_instance cexDB3 1 1 0 1 7 0).2.schedules.filter
      (fun s => s.plant_instance_id == 7)).length = 30 := by
  refine ⟨rfl, rfl, rfl, rfl, rfl, rfl, ?_⟩
  intro h
  have h0 : (0 : Nat) = 30 := by
    calc (0 : Nat)
        = ((create_plant_instance cexDB3 1 1 0 1 7 0).2.schedules.filter
            (fun s => s.plant_instance_id == 7)).length := rfl
      _ = 30 := h
  exact absurd h0 (by omega)

theorem refreshInstance_eq (growth_cycles : List GrowthCycle) (plants : List Plant)
    (today : Int) (inst : PlantInstance) (plant : Plant) (gid : Nat)
    (hplant : plants.find? (fun p => p.id == inst.plant_id) = some plant)
    (hgid : plant.growth_cycle_id = some gid) :
    refreshInstance growth_cycles plants today inst =
      { inst with
        current_growth_stage :=
          (calculate_growth_status growth_cycles inst.planted_on (some gid) today).1,
        days_since_planting :=
          (calculate_growth_status growth_cycles inst.planted_on (some gid) today).2.1,
        expected_harvest_date :=
          (calculate_growth_status growth_cycles inst.planted_on (some gid) today).2.2 } := by
  unfold refreshInstance
  simp only [hplant, hgid]

/-- C4 (amended): for a stored plant instance whose referenced plant exists
and carries a growth-cycle reference, the LISTING read reports the three
derived fields recomputed live by `calculate_growth_status` from the cycle
table and today's date (ignoring the stored snapshot), while the
single-instance DETAIL read returns the stored row unchanged — it does not
recompute. -/
theorem plant_instance_read_semantics (db : DB) (today : Int)
    (inst : PlantInstance) (plant : Plant) (gid : Nat)
    (hmem : inst ∈ db.plant_instances)
    (hplant : db.plants.find? (fun p => p.id == inst.plant_id) = some plant)
    (hgid : plant.growth_cycle_id = some gid) :
    (∃ r, r ∈ list_plant_instances db none today ∧ r.id = inst.id ∧
      r.current_growth_stage
        = (calculate_growth_status db.growth_cycles inst.planted_on (some gid) today).1 ∧
      r.days_since_planting
        = (calculate_growth_status db.growth_cycles inst.planted_on (some gid) today).2.1 ∧
      r.expected_harvest_date
        = (calculate_growth_status db.growth_cycles inst.planted_on (some gid) today).2.2) ∧
    get_plant_instance db inst.id = db.plant_instances.find? (fun i => i.id == inst.id) := by
  refine ⟨⟨refreshInstance db.growth_cycles db.plants today inst, ?_, ?_, ?_, ?_, ?_⟩, rfl⟩
  · show refreshInstance db.growth_cycles db.plants today inst ∈
      db.plant_instances.map (refreshInstance db.growth_cycles db.plants today)
    exact List.mem_map_of_mem _ hmem
  · rw [refreshInstance_eq db.growth_cycles db.plants today inst plant gid hplant hgid]
  · rw [refreshInstance_eq db.growth_cycles db.plants today inst plant gid hplant hgid]
  · rw [refreshInstance_eq db.growth_cycles db.plants today inst plant gid hplant hgid]
  · rw [refreshInstance_eq db.growth_cycles db.plants today inst plant gid hplant hgid]

/-- Witness for C4 at `c4DB`, day 50. -/
theorem plant_instance_read_semantics_witness :
    (c4Inst ∈ c4DB.plant_instances ∧
     c4DB.plants.find? (fun p => p.id == c4Inst.plant_id) = some c4Plant ∧
     c4Plant.growth_cycle_id = some 1) ∧
    ((∃ r, r ∈ list_plant_instances c4DB none 50 ∧ r.id = c4Inst.id ∧
      r.current_growth_stage
        = (calculate_growth_status c4DB.growth_cycles c4Inst.planted_on (some 1) 50).1 ∧
      r.days_since_planting
        = (calculate_growth_status c4DB.growth_cycles c4Inst.planted_on (some 1) 50).2.1 ∧
      r.expected_harvest_date
        = (calculate_growth_status c4DB.growth_cycles c4Inst.planted_on (some 1) 50).2.2) ∧
     get_plant_instance c4DB c4Inst.id
       = c4DB.plant_instances.find? (fun i => i.id == c4Inst.id)) :=
  ⟨⟨List.mem_singleton.mpr rfl, rfl, rfl⟩,
    plant_instance_read_semantics c4DB 50 c4Inst c4Plant 1
      (List.mem_singleton.mpr rfl) rfl rfl⟩

/-- C4 counterexample: in `c4DB` the live recomputation at day 50 yields
stage "vegetative", but the single-instance detail read returns the stored
row whose snapshot stage is still "germination" — the detail read does not
recompute the derived fields. -/
theorem plant_instance_detail_stale_cex :
    (calculate_growth_status c4DB.growth_cycles c4Inst.planted_on (some 1) 50).1
      = some "vegetative" ∧
    get_plant_instance c4DB 1 = some c4Inst ∧
    c4Inst.current_growth_stage = some "germination" ∧
    ¬ (get_plant_instance c4DB 1).map (fun i => i.current_growth_stage)
        = some (calculate_growth_status c4DB.growth_cycles c4Inst.planted_on
            (some 1) 50).1 := by
  refine ⟨rfl, rfl, rfl, by decide⟩

end Farmconnect
